import Mathlib

/-!
Shallow embedding of the Auto-Advertisment-Backend product lifecycle and
event fan-out logic, translated from the JavaScript source:

  * src/models/ProductModel.js       → `ProductDoc`, `createProduct`
  * src/models/BusinessModel.js      → `BusinessDoc`, `createBusiness`
  * src/utils/socketEmitter.js       → `emitProductUpdate`, `emitProductCreate`,
                                       `emitProductDelete`
  * src/routes/productRoutes.js      → `createProductRoute`, `uploadProducts`,
                                       `updateProductFields`, `uploadProductImage`,
                                       `removeProductRoute`
  * src/routes/aiRoutes.js           → `generateAdImage`

External collaborators (Firestore, Firebase Storage, node-fetch/sharp, the
OpenAI image API and the Socket.IO transport) are modelled as explicit state
(`State`) and oracles (`Oracles`).  Server timestamps are natural numbers.
JSON string values are `Option String` where `none` conflates JavaScript
`null` with an absent key (no claim distinguishes the two).
-/

namespace AutoAd

/-- JavaScript truthiness for string-valued JSON fields: `undefined`/`null`
(`none`) and the empty string are falsy, every other string is truthy. -/
def jsTruthy : Option String → Bool
  | none => false
  | some s => !(s == "")

/-- JavaScript `a || b` on nullable strings, with a nullable fallback
(models `x || null` chains in the source). -/
def jsOrOpt (v : Option String) (d : Option String) : Option String :=
  match v with
  | none => d
  | some s => if s == "" then d else some s

/-- JavaScript `a || b` on a nullable string with a definite fallback. -/
def jsOrStr (v : Option String) (d : String) : String :=
  match v with
  | none => d
  | some s => if s == "" then d else s

/-- Modelled stand-in for Node's `crypto.createHash("md5")...digest("hex")`
(an external library call): all the routes rely on is that it is a
deterministic function of the input string. -/
def md5hex (s : String) : String := "md5:" ++ s

/-- Firestore product document, one field per key the backend ever writes:
the schema keys of `ProductFields` in src/models/ProductModel.js plus the
`errorMessage`/`failedAt` keys merged in by the AI route's failure handler.
`none` is a `null` or absent field; timestamps are `Nat`. -/
structure ProductDoc where
  id : Option String
  name : Option String
  price : Option String
  description : Option String
  imageUrl : Option String
  generatedImageUrl : Option String
  advertisementText : Option String
  imagePrompt : Option String
  status : Option String
  businessId : Option String
  productType : Option String
  productCategory : Option String
  marketingGoal : Option String
  visualMood : Option String
  photoStyle : Option String
  backgroundStyle : Option String
  targetAudience : Option String
  includePriceInAd : Option Bool
  emphasizeBrandIdentity : Option Bool
  preserveOriginalProduct : Option Bool
  imageAspect : Option String
  toneOfVoice : Option String
  secondaryLanguage : Option String
  postDate : Option Nat
  createdAt : Option Nat
  updatedAt : Option Nat
  errorMessage : Option String
  failedAt : Option Nat
  deriving DecidableEq, Repr

/-- Document with every field absent: what a Firestore merge-write creates
when it targets a document id that does not exist yet. -/
def emptyDoc : ProductDoc :=
  { id := none, name := none, price := none, description := none
  , imageUrl := none, generatedImageUrl := none, advertisementText := none
  , imagePrompt := none, status := none, businessId := none
  , productType := none, productCategory := none, marketingGoal := none
  , visualMood := none, photoStyle := none, backgroundStyle := none
  , targetAudience := none, includePriceInAd := none
  , emphasizeBrandIdentity := none, preserveOriginalProduct := none
  , imageAspect := none, toneOfVoice := none, secondaryLanguage := none
  , postDate := none, createdAt := none, updatedAt := none
  , errorMessage := none, failedAt := none }

/-- Caller-supplied product object (request-body item), nullable field per
key `createProduct` reads; `nameUpper` models the capitalised `Name` key the
batch route falls back to; `imageAspect` models the `aspectRatio` key. -/
structure ProductInput where
  id : Option String
  productId : Option String
  name : Option String
  nameUpper : Option String
  price : Option String
  description : Option String
  imageUrl : Option String
  generatedImageUrl : Option String
  advertisementText : Option String
  imagePrompt : Option String
  status : Option String
  businessId : Option String
  productType : Option String
  productCategory : Option String
  marketingGoal : Option String
  visualMood : Option String
  photoStyle : Option String
  backgroundStyle : Option String
  targetAudience : Option String
  includePriceInAd : Option Bool
  emphasizeBrandIdentity : Option Bool
  preserveOriginalProduct : Option Bool
  imageAspect : Option String
  toneOfVoice : Option String
  secondaryLanguage : Option String
  postDate : Option Nat
  errorMessage : Option String
  failedAt : Option Nat
  deriving DecidableEq, Repr

/-- Input with every key absent. -/
def emptyInput : ProductInput :=
  { id := none, productId := none, name := none, nameUpper := none
  , price := none, description := none, imageUrl := none
  , generatedImageUrl := none, advertisementText := none, imagePrompt := none
  , status := none, businessId := none, productType := none
  , productCategory := none, marketingGoal := none, visualMood := none
  , photoStyle := none, backgroundStyle := none, targetAudience := none
  , includePriceInAd := none, emphasizeBrandIdentity := none
  , preserveOriginalProduct := none, imageAspect := none, toneOfVoice := none
  , secondaryLanguage := none, postDate := none, errorMessage := none
  , failedAt := none }

/-- Translation of `createProduct` in src/models/ProductModel.js (current
revision): spreads `ProductFields` then the input, then overrides every
schema key explicitly (`x || null` chains, `typeof === "boolean"` guards
for the three booleans, `status: product.status || STATUS.PENDING`,
`createdAt`/`updatedAt` forced to the server timestamp `now`).  The
`errorMessage`/`failedAt` keys have no explicit override, so they pass
through from the spread input exactly when the caller supplied them. -/
def createProduct (p : ProductInput) (now : Nat) : ProductDoc :=
  { id := jsOrOpt p.id (jsOrOpt p.productId none)
  , businessId := jsOrOpt p.businessId none
  , name := jsOrOpt p.name none
  , price := jsOrOpt p.price none
  , description := jsOrOpt p.description none
  , imageUrl := jsOrOpt p.imageUrl none
  , generatedImageUrl := jsOrOpt p.generatedImageUrl none
  , advertisementText := jsOrOpt p.advertisementText none
  , imagePrompt := jsOrOpt p.imagePrompt none
  , status := some (jsOrStr p.status "pending")
  , postDate := p.postDate
  , createdAt := some now
  , updatedAt := some now
  , productType := jsOrOpt p.productType none
  , productCategory := jsOrOpt p.productCategory none
  , marketingGoal := jsOrOpt p.marketingGoal none
  , visualMood := jsOrOpt p.visualMood none
  , photoStyle := jsOrOpt p.photoStyle none
  , backgroundStyle := jsOrOpt p.backgroundStyle none
  , targetAudience := jsOrOpt p.targetAudience none
  , includePriceInAd := some (p.includePriceInAd.getD true)
  , emphasizeBrandIdentity := some (p.emphasizeBrandIdentity.getD false)
  , preserveOriginalProduct := some (p.preserveOriginalProduct.getD true)
  , imageAspect := some (jsOrStr p.imageAspect "1:1")
  , toneOfVoice := jsOrOpt p.toneOfVoice none
  , secondaryLanguage := jsOrOpt p.secondaryLanguage none
  , errorMessage := p.errorMessage
  , failedAt := p.failedAt }

/-- Firestore `set(createProduct(...), { merge: true })` against a possibly
existing document: `createProduct` emits every schema key, so those are all
overwritten; the `errorMessage`/`failedAt` keys are only present in its
output when the input carried them, so on an existing document they survive
the merge otherwise. -/
def mergeCreate (existing : Option ProductDoc) (p : ProductInput) (now : Nat) :
    ProductDoc :=
  let d := createProduct p now
  match existing with
  | none => d
  | some e =>
    { d with
      errorMessage := match p.errorMessage with
        | some v => some v
        | none => e.errorMessage
      failedAt := match p.failedAt with
        | some v => some v
        | none => e.failedAt }

/-- Firestore business document, from `BusinessFields` in
src/models/BusinessModel.js.  The nested `address`/`owner`/`businessPersona`
objects are opaque pass-through context for the AI prompt and are modelled
as opaque string blobs (`none` conflating `null` with the all-null default
persona object, which no claim inspects). -/
structure BusinessDoc where
  businessId : Option String
  name : Option String
  description : Option String
  logoUrl : Option String
  address : Option String
  contactPhone : Option String
  businessEmail : Option String
  websiteUrl : Option String
  owner : Option String
  brandColors : List String
  preferredStyle : Option String
  businessType : Option String
  category : Option String
  targetAudience : Option String
  toneOfVoice : Option String
  visualStyle : Option String
  businessPersona : Option String
  sellingPlatforms : List String
  location : Option String
  languages : List String
  businessGoal : Option String
  slogan : Option String
  instagram : Option String
  facebook : Option String
  tiktok : Option String
  createdAt : Option Nat
  updatedAt : Option Nat
  deriving DecidableEq, Repr

/-- Caller-supplied business object for `createBusiness` (destructured
parameter, one nullable field per destructured key). -/
structure BusinessInput where
  businessId : Option String
  name : Option String
  description : Option String
  logoUrl : Option String
  address : Option String
  contactPhone : Option String
  businessEmail : Option String
  websiteUrl : Option String
  owner : Option String
  brandColors : Option (List String)
  preferredStyle : Option String
  businessType : Option String
  category : Option String
  targetAudience : Option String
  toneOfVoice : Option String
  visualStyle : Option String
  businessPersona : Option String
  sellingPlatforms : Option (List String)
  location : Option String
  languages : Option (List String)
  businessGoal : Option String
  slogan : Option String
  instagram : Option String
  facebook : Option String
  tiktok : Option String
  deriving DecidableEq, Repr

/-- Business input with every key absent. -/
def emptyBusinessInput : BusinessInput :=
  { businessId := none, name := none, description := none, logoUrl := none
  , address := none, contactPhone := none, businessEmail := none
  , websiteUrl := none, owner := none, brandColors := none
  , preferredStyle := none, businessType := none, category := none
  , targetAudience := none, toneOfVoice := none, visualStyle := none
  , businessPersona := none, sellingPlatforms := none, location := none
  , languages := none, businessGoal := none, slogan := none
  , instagram := none, facebook := none, tiktok := none }

/-- Translation of `createBusiness` in src/models/BusinessModel.js:
destructuring defaults (`= null` for most keys, `[]` for `brandColors` and
`sellingPlatforms`, `"realistic"` for `preferredStyle`, `["hebrew"]` for
`languages`) followed by a spread of `BusinessFields` and explicit
assignment of every key, with `createdAt`/`updatedAt` set to `now`. -/
def createBusiness (b : BusinessInput) (now : Nat) : BusinessDoc :=
  { businessId := b.businessId
  , name := b.name
  , description := b.description
  , logoUrl := b.logoUrl
  , address := b.address
  , contactPhone := b.contactPhone
  , businessEmail := b.businessEmail
  , websiteUrl := b.websiteUrl
  , owner := b.owner
  , brandColors := b.brandColors.getD []
  , preferredStyle := some (b.preferredStyle.getD "realistic")
  , businessType := b.businessType
  , category := b.category
  , targetAudience := b.targetAudience
  , toneOfVoice := b.toneOfVoice
  , visualStyle := b.visualStyle
  , businessPersona := b.businessPersona
  , sellingPlatforms := b.sellingPlatforms.getD []
  , location := b.location
  , languages := b.languages.getD ["hebrew"]
  , businessGoal := b.businessGoal
  , slogan := b.slogan
  , instagram := b.instagram
  , facebook := b.facebook
  , tiktok := b.tiktok
  , createdAt := some now
  , updatedAt := some now }

/-- Entity Store: the hierarchical Firestore layout
`users/{uid}/businesses/{businessId}` and
`users/{uid}/businesses/{businessId}/products/{productId}`, as total lookup
functions from path components to the document stored there. -/
structure State where
  products : String → String → String → Option ProductDoc
  businesses : String → String → Option BusinessDoc

/-- State with no documents at all. -/
def emptyState : State :=
  { products := fun _ _ _ => none, businesses := fun _ _ => none }

/-- Product document lookup along a storage path. -/
def getProduct (st : State) (uid businessId productId : String) :
    Option ProductDoc :=
  st.products uid businessId productId

/-- Commit a product document at its storage path. -/
def setProduct (st : State) (uid businessId productId : String)
    (d : ProductDoc) : State :=
  { st with
    products := fun u b p =>
      if u = uid ∧ b = businessId ∧ p = productId then some d
      else st.products u b p }

/-- Delete the product document at a storage path (Firestore `delete` is a
no-op on a missing document). -/
def removeProduct (st : State) (uid businessId productId : String) : State :=
  { st with
    products := fun u b p =>
      if u = uid ∧ b = businessId ∧ p = productId then none
      else st.products u b p }

/-- Commit a business document at its storage path. -/
def setBusiness (st : State) (uid businessId : String) (d : BusinessDoc) :
    State :=
  { st with
    businesses := fun u b =>
      if u = uid ∧ b = businessId then some d
      else st.businesses u b }

/-- Outcome of the OpenAI `images/edits` call: the request may throw, may
answer 200 with a body lacking `data[0].b64_json`, or may return image
data. -/
inductive OpenAIResult where
  | throws
  | invalid
  | ok (b64 : String)
  deriving DecidableEq, Repr

/-- Outcome of a Firebase Storage save + `getSignedUrl` round trip. -/
inductive StorageResult where
  | throws
  | ok (url : String)
  deriving DecidableEq, Repr

/-- Environment oracles for one request: whether `req.app.get("io")` yields
a Socket.IO server, whether `io.to(room).emit(...)` throws, whether the
image download + sharp conversion succeeds, and the OpenAI / Storage
outcomes. -/
structure Oracles where
  io : Bool
  emitOk : Bool
  fetchOk : Bool
  openai : OpenAIResult
  storage : StorageResult
  deriving DecidableEq, Repr

/-- Payload of a published Socket.IO event: the full product object
(route-level id plus the stored document fields) for created/updated, the
identifying keys only for deleted. -/
inductive EventPayload where
  | doc (id : String) (businessId : Option String) (d : ProductDoc)
  | idOnly (id : String) (businessId : Option String)
  | biz (businessId : String) (d : BusinessDoc)
  | bizIdOnly (businessId : String)
  deriving DecidableEq, Repr

/-- One published Socket.IO event: target room, event name, payload. -/
structure Event where
  room : String
  kind : String
  payload : EventPayload
  deriving DecidableEq, Repr

/-- Identity used in the emitted payload `{ id: productId, ...doc.data() }`:
the document's own `id` field (spread last) wins when present, otherwise
the route-level product id. -/
def mergedId (docId : Option String) (routeId : String) : String :=
  match docId with
  | some s => s
  | none => routeId

/-- Translation of `emitProductUpdate` in src/utils/socketEmitter.js: bails
out (warning log only) when `io` is unavailable, the user id is falsy, or
the payload's `id` is falsy; otherwise emits `product:updated` to room
`user:{uid}` inside a try/catch, so a throwing transport yields no event
and no propagated error. -/
def emitProductUpdate (io emitOk : Bool) (userId : String)
    (payloadId : String) (businessId : Option String) (d : ProductDoc) :
    List Event :=
  if !io then []
  else if userId == "" then []
  else if payloadId == "" then []
  else if emitOk then
    [{ room := "user:" ++ userId, kind := "product:updated"
     , payload := .doc payloadId businessId d }]
  else []

/-- Translation of `emitProductCreate` in src/utils/socketEmitter.js (same
guard and try/catch structure, event name `product:created`). -/
def emitProductCreate (io emitOk : Bool) (userId : String)
    (payloadId : String) (businessId : Option String) (d : ProductDoc) :
    List Event :=
  if !io then []
  else if userId == "" then []
  else if payloadId == "" then []
  else if emitOk then
    [{ room := "user:" ++ userId, kind := "product:created"
     , payload := .doc payloadId businessId d }]
  else []

/-- Translation of `emitProductDelete` in src/utils/socketEmitter.js (guards
on `io`, `userId`, `productId`; payload `{ id, businessId }`). -/
def emitProductDelete (io emitOk : Bool) (userId productId : String)
    (businessId : String) : List Event :=
  if !io then []
  else if userId == "" then []
  else if productId == "" then []
  else if emitOk then
    [{ room := "user:" ++ userId, kind := "product:deleted"
     , payload := .idOnly productId (some businessId) }]
  else []

/-- Result of one route handler invocation: the committed Entity Store
state, the HTTP status code (`res.json` without an explicit status is 200),
the response's `success` flag, the `savedCount` field when the response has
one, and the list of published events. -/
structure RouteResult where
  store : State
  statusCode : Nat
  success : Bool
  savedCount : Option Nat
  events : List Event

/-- Business id in an emitted payload `{ id, businessId, ...doc.data() }`:
the spread document's `businessId` key wins when present, the route-level
business id otherwise (a stored `null` is conflated with an absent key). -/
def jsMergeBusiness (docB : Option String) (routeB : String) : Option String :=
  match docB with
  | some s => some s
  | none => some routeB

/-- Request body of `PATCH /products/update/:businessId/:productId`
("Update ANY product field(s) dynamically"): an arbitrary subset of the
product's schema fields (`none` = key absent).  The route merge-writes the
raw body with no key filtering — `{ ...updates, updatedAt: now }` — so the
only server-forced key is `updatedAt`: a body may set `createdAt` and
`failedAt` too. -/
structure ProductPatch where
  name : Option String
  price : Option String
  description : Option String
  imageUrl : Option String
  generatedImageUrl : Option String
  advertisementText : Option String
  imagePrompt : Option String
  status : Option String
  errorMessage : Option String
  postDate : Option Nat
  createdAt : Option Nat
  failedAt : Option Nat
  deriving DecidableEq, Repr

/-- Patch with no keys at all. -/
def emptyPatch : ProductPatch :=
  { name := none, price := none, description := none, imageUrl := none
  , generatedImageUrl := none, advertisementText := none
  , imagePrompt := none, status := none, errorMessage := none
  , postDate := none, createdAt := none, failedAt := none }

/-- `Object.keys(updates).length === 0` for a `ProductPatch`. -/
def patchIsEmpty (p : ProductPatch) : Bool :=
  p.name.isNone && p.price.isNone && p.description.isNone &&
  p.imageUrl.isNone && p.generatedImageUrl.isNone &&
  p.advertisementText.isNone && p.imagePrompt.isNone &&
  p.status.isNone && p.errorMessage.isNone && p.postDate.isNone &&
  p.createdAt.isNone && p.failedAt.isNone

/-- Firestore merge-write `set({ ...updates, updatedAt: now }, merge)`: each
key present in the patch overwrites the stored field — including a
caller-supplied `createdAt` or `failedAt` — every other field is untouched,
and `updatedAt` (spelled after the spread) is always the server time. -/
def applyPatch (d : ProductDoc) (p : ProductPatch) (now : Nat) : ProductDoc :=
  { d with
    name := match p.name with | some v => some v | none => d.name
    price := match p.price with | some v => some v | none => d.price
    description := match p.description with
      | some v => some v | none => d.description
    imageUrl := match p.imageUrl with | some v => some v | none => d.imageUrl
    generatedImageUrl := match p.generatedImageUrl with
      | some v => some v | none => d.generatedImageUrl
    advertisementText := match p.advertisementText with
      | some v => some v | none => d.advertisementText
    imagePrompt := match p.imagePrompt with
      | some v => some v | none => d.imagePrompt
    status := match p.status with | some v => some v | none => d.status
    errorMessage := match p.errorMessage with
      | some v => some v | none => d.errorMessage
    postDate := match p.postDate with | some v => some v | none => d.postDate
    createdAt := match p.createdAt with
      | some v => some v | none => d.createdAt
    failedAt := match p.failedAt with | some v => some v | none => d.failedAt
    updatedAt := some now }

/-- Translation of `POST /products/:businessId` (create one product):
rejects a falsy `product.name` with 400; derives the document id as
`product.id || md5(product.name + Date.now())`; calls `createProduct` on
`{ id: productId, businessId, ...product, status: "pending", createdAt:
now, updatedAt: now }` (the body spread can re-override `id` and
`businessId`, but `status` and the timestamps come after the spread and
always win); merge-writes it; emits one `product:created`; responds 200. -/
def createProductRoute (st : State) (uid businessId : String)
    (body : ProductInput) (oc : Oracles) (now : Nat) : RouteResult :=
  if !(jsTruthy body.name) then ⟨st, 400, false, none, []⟩
  else
    let pid := jsOrStr body.id (md5hex (jsOrStr body.name "" ++ toString now))
    let input := { body with
      id := match body.id with | some s => some s | none => some pid
      businessId := match body.businessId with
        | some s => some s | none => some businessId
      status := some "pending" }
    let d := mergeCreate (getProduct st uid businessId pid) input now
    let st2 := setProduct st uid businessId pid d
    let evs := emitProductCreate oc.io oc.emitOk uid (mergedId d.id pid)
      d.businessId d
    ⟨st2, 200, true, none, evs⟩

/-- Document id a batch-upload item is stored under:
`product.id || md5(product.name || product.Name || "unnamed")`. -/
def batchDocId (p : ProductInput) : String :=
  jsOrStr p.id (md5hex (jsOrStr p.name (jsOrStr p.nameUpper "unnamed")))

/-- Argument the batch route passes to `createProduct`:
`{ id: productId, ...product, status: "pending" }` (the body spread can
re-override `id`; `status` comes after the spread and always wins). -/
def batchItemInput (p : ProductInput) : ProductInput :=
  { p with
    id := match p.id with | some s => some s | none => some (batchDocId p)
    status := some "pending" }

/-- One `batch.set(productRef, createProduct(...), { merge: true })` of the
batch-upload loop. -/
def applyBatchItem (uid businessId : String) (now : Nat) (st : State)
    (p : ProductInput) : State :=
  let pid := batchDocId p
  setProduct st uid businessId pid
    (mergeCreate (getProduct st uid businessId pid) (batchItemInput p) now)

/-- Business upsert the batch route performs before its product writes:
`businessRef.set(createBusiness({ businessId, ...businessInfo }), merge)`
(the body spread can re-override `businessId`; `createBusiness` emits every
schema key, so the merge overwrites the whole document). -/
def batchSeed (st : State) (uid bid : String) (info : BusinessInput)
    (now : Nat) : State :=
  setBusiness st uid bid
    (createBusiness
      { info with businessId := match info.businessId with
          | some s => some s | none => some bid } now)

/-- Translation of `POST /products/upload` (batch upload): rejects missing
`uid`/`businessId`/`products` with 400; merge-writes the business document
via `createBusiness({ businessId, ...businessInfo })`; writes every product
item in request order through `createProduct` in one batch; responds 200
with `savedCount: products.length`.  The route publishes no events. -/
def uploadProducts (st : State) (uid : String) (businessId : Option String)
    (info : BusinessInput) (items : Option (List ProductInput))
    (_oc : Oracles) (now : Nat) : RouteResult :=
  if uid == "" || !(jsTruthy businessId) || items.isNone then
    ⟨st, 400, false, none, []⟩
  else
    let bid := businessId.getD ""
    let ps := items.getD []
    let st2 := ps.foldl (applyBatchItem uid bid now) (batchSeed st uid bid info now)
    ⟨st2, 200, true, some ps.length, []⟩

/-- Translation of `POST /products/upload/:businessId/:productId` (single
image upload): rejects a missing file with 400; on storage failure responds
500; otherwise merge-writes `{ imageUrl: url, updatedAt: now }` (creating a
document with only those fields when the id does not exist), emits one
`product:updated`, responds 200.  The best-effort blob folder cleanup has
no document-store effect and is not modelled. -/
def uploadProductImage (st : State) (uid businessId productId : String)
    (file : Option String) (oc : Oracles) (now : Nat) : RouteResult :=
  match file with
  | none => ⟨st, 400, false, none, []⟩
  | some _ =>
    match oc.storage with
    | .throws => ⟨st, 500, false, none, []⟩
    | .ok url =>
      let d0 := (getProduct st uid businessId productId).getD emptyDoc
      let d := { d0 with imageUrl := some url, updatedAt := some now }
      let st2 := setProduct st uid businessId productId d
      let evs := emitProductUpdate oc.io oc.emitOk uid (mergedId d.id productId)
        (jsMergeBusiness d.businessId businessId) d
      ⟨st2, 200, true, none, evs⟩

/-- Translation of `PATCH /products/update/:businessId/:productId`: rejects
an empty body with 400; answers 404 without touching the store when the
product does not exist; otherwise merge-writes the provided fields plus a
refreshed `updatedAt`, emits one `product:updated`, responds 200. -/
def updateProductFields (st : State) (uid businessId productId : String)
    (patch : ProductPatch) (oc : Oracles) (now : Nat) : RouteResult :=
  if patchIsEmpty patch then ⟨st, 400, false, none, []⟩
  else
    match getProduct st uid businessId productId with
    | none => ⟨st, 404, false, none, []⟩
    | some d0 =>
      let d := applyPatch d0 patch now
      let st2 := setProduct st uid businessId productId d
      let evs := emitProductUpdate oc.io oc.emitOk uid (mergedId d.id productId)
        (jsMergeBusiness d.businessId businessId) d
      ⟨st2, 200, true, none, evs⟩

/-- Translation of `DELETE /products/:businessId/:productId`: rejects empty
path parameters with 400; deletes the Firestore document (a no-op on a
missing id), best-effort-deletes the blob folder (no document-store
effect), emits one `product:deleted`, responds 200. -/
def removeProductRoute (st : State) (uid businessId productId : String)
    (oc : Oracles) (_now : Nat) : RouteResult :=
  if businessId == "" || productId == "" then ⟨st, 400, false, none, []⟩
  else
    let st2 := removeProduct st uid businessId productId
    let evs := emitProductDelete oc.io oc.emitOk uid productId businessId
    ⟨st2, 200, true, none, evs⟩

/-- Merge committed by the AI route's catch handler:
`{ status: "failed", errorMessage: err.message || "AI generation failed",
failedAt: now, updatedAt: now }` into the existing document. -/
def failedMerge (d : ProductDoc) (msg : String) (now : Nat) : ProductDoc :=
  { d with
    status := some "failed"
    errorMessage := some msg
    failedAt := some now
    updatedAt := some now }

/-- Catch handler of `POST /ai/generate-ad-image`: commit `failedMerge`
over the product that was read, emit one `product:updated` with the
re-fetched document, respond 500. -/
def failResult (st : State) (uid bid pid : String) (d0 : ProductDoc)
    (oc : Oracles) (msg : String) (now : Nat) : RouteResult :=
  let d := failedMerge d0 msg now
  let st2 := setProduct st uid bid pid d
  let evs := emitProductUpdate oc.io oc.emitOk uid (mergedId d.id pid)
    (jsMergeBusiness d.businessId bid) d
  ⟨st2, 500, false, none, evs⟩

/-- Translation of `POST /ai/generate-ad-image`: 400 when
`businessId`/`productId`/`uid` is falsy; 404 when the product is missing;
400 when `imageUrl` or `imagePrompt` is falsy; then downloads and converts
the source image, calls OpenAI, and saves the result.  A thrown error at
any of those steps reaches the catch handler, which commits `failedMerge`
(the oracle-specific message models `err.message`, always non-empty),
emits one `product:updated`, and responds 500.  An OpenAI 200 response
without `data[0].b64_json` is answered 500 *without* touching the store.
On success it merge-writes `{ generatedImageUrl, status: "enriched",
updatedAt: now }`, emits one `product:updated`, and responds 200. -/
def generateAdImage (st : State) (uid : String)
    (businessId productId : Option String) (oc : Oracles) (now : Nat) :
    RouteResult :=
  if !(jsTruthy businessId && jsTruthy productId && !(uid == "")) then
    ⟨st, 400, false, none, []⟩
  else
    let bid := businessId.getD ""
    let pid := productId.getD ""
    match getProduct st uid bid pid with
    | none => ⟨st, 404, false, none, []⟩
    | some d0 =>
      if !(jsTruthy d0.imageUrl && jsTruthy d0.imagePrompt) then
        ⟨st, 400, false, none, []⟩
      else
        if !oc.fetchOk then failResult st uid bid pid d0 oc "fetch failed" now
        else
          match oc.openai with
          | .throws => failResult st uid bid pid d0 oc "openai request failed" now
          | .invalid => ⟨st, 500, false, none, []⟩
          | .ok _ =>
            match oc.storage with
            | .throws => failResult st uid bid pid d0 oc "storage save failed" now
            | .ok url =>
              let d := { d0 with
                generatedImageUrl := some url
                status := some "enriched"
                updatedAt := some now }
              let st2 := setProduct st uid bid pid d
              let evs := emitProductUpdate oc.io oc.emitOk uid
                (mergedId d.id pid) (jsMergeBusiness d.businessId bid) d
              ⟨st2, 200, true, none, evs⟩

/-- Inline emit pattern of the business routes:
`try { io?.to(room).emit(kind, payload) } catch { warn }` — a missing `io`
short-circuits the optional chain (no emit, no throw); a throwing emit is
caught and only logged. -/
def emitInline (io emitOk : Bool) (room kind : String)
    (payload : EventPayload) : List Event :=
  if io then
    if emitOk then [{ room := room, kind := kind, payload := payload }]
    else []
  else []

/-- Business document with every field absent (what a merge-write into a
missing id creates; the list fields conflate an absent key with `[]`). -/
def emptyBusinessDoc : BusinessDoc :=
  { businessId := none, name := none, description := none, logoUrl := none
  , address := none, contactPhone := none, businessEmail := none
  , websiteUrl := none, owner := none, brandColors := []
  , preferredStyle := none, businessType := none, category := none
  , targetAudience := none, toneOfVoice := none, visualStyle := none
  , businessPersona := none, sellingPlatforms := [], location := none
  , languages := [], businessGoal := none, slogan := none
  , instagram := none, facebook := none, tiktok := none
  , createdAt := none, updatedAt := none }

/-- Delete the business document at a storage path (Firestore `delete` is a
no-op on a missing document). -/
def removeBusiness (st : State) (uid businessId : String) : State :=
  { st with
    businesses := fun u b =>
      if u = uid ∧ b = businessId then none
      else st.businesses u b }

/-- Request body of `PATCH /businesses/:businessId`: an arbitrary subset of
the business's schema fields, merge-written with no key filtering — as with
products, only `updatedAt` is server-forced, so the body may set
`createdAt`. -/
structure BusinessPatch where
  name : Option String
  description : Option String
  logoUrl : Option String
  contactPhone : Option String
  businessEmail : Option String
  websiteUrl : Option String
  location : Option String
  slogan : Option String
  instagram : Option String
  facebook : Option String
  tiktok : Option String
  createdAt : Option Nat
  deriving DecidableEq, Repr

/-- Business patch with no keys at all. -/
def emptyBusinessPatch : BusinessPatch :=
  { name := none, description := none, logoUrl := none, contactPhone := none
  , businessEmail := none, websiteUrl := none, location := none
  , slogan := none, instagram := none, facebook := none, tiktok := none
  , createdAt := none }

/-- `Object.keys(updates).length === 0` for a `BusinessPatch`. -/
def bizPatchIsEmpty (p : BusinessPatch) : Bool :=
  p.name.isNone && p.description.isNone && p.logoUrl.isNone &&
  p.contactPhone.isNone && p.businessEmail.isNone && p.websiteUrl.isNone &&
  p.location.isNone && p.slogan.isNone && p.instagram.isNone &&
  p.facebook.isNone && p.tiktok.isNone && p.createdAt.isNone

/-- Firestore `update({ ...updates, updatedAt: now })` on an existing
business document. -/
def applyBusinessPatch (d : BusinessDoc) (p : BusinessPatch) (now : Nat) :
    BusinessDoc :=
  { d with
    name := match p.name with | some v => some v | none => d.name
    description := match p.description with
      | some v => some v | none => d.description
    logoUrl := match p.logoUrl with | some v => some v | none => d.logoUrl
    contactPhone := match p.contactPhone with
      | some v => some v | none => d.contactPhone
    businessEmail := match p.businessEmail with
      | some v => some v | none => d.businessEmail
    websiteUrl := match p.websiteUrl with
      | some v => some v | none => d.websiteUrl
    location := match p.location with | some v => some v | none => d.location
    slogan := match p.slogan with | some v => some v | none => d.slogan
    instagram := match p.instagram with
      | some v => some v | none => d.instagram
    facebook := match p.facebook with | some v => some v | none => d.facebook
    tiktok := match p.tiktok with | some v => some v | none => d.tiktok
    createdAt := match p.createdAt with
      | some v => some v | none => d.createdAt
    updatedAt := some now }

/-- Translation of `POST /businesses` (create): rejects a falsy
`businessData.name` with 400; writes `createBusiness({ businessId:
autoId, ...businessData })` (the body spread can re-override `businessId`;
the `undefined -> null` normalisation loop is the identity here) at the
auto-generated document id; emits one inline `business:created`; responds
201.  `newId` models `businessesRef.doc()`'s generated id. -/
def createBusinessRoute (st : State) (uid : String) (body : BusinessInput)
    (newId : String) (oc : Oracles) (now : Nat) : RouteResult :=
  if !(jsTruthy body.name) then ⟨st, 400, false, none, []⟩
  else
    let input := { body with businessId := match body.businessId with
      | some s => some s | none => some newId }
    let d := createBusiness input now
    let st2 := setBusiness st uid newId d
    let evs := emitInline oc.io oc.emitOk ("user:" ++ uid) "business:created"
      (.biz newId d)
    ⟨st2, 201, true, none, evs⟩

/-- Translation of `PATCH /businesses/:businessId`: rejects an empty body
with 400; `businessRef.update(...)` throws on a missing document, which the
outer catch turns into a 500 with no commit and no event; otherwise the
provided fields plus a refreshed `updatedAt` are committed, one inline
`business:updated` is emitted, and the response is 200. -/
def updateBusinessRoute (st : State) (uid businessId : String)
    (patch : BusinessPatch) (oc : Oracles) (now : Nat) : RouteResult :=
  if bizPatchIsEmpty patch then ⟨st, 400, false, none, []⟩
  else
    match st.businesses uid businessId with
    | none => ⟨st, 500, false, none, []⟩
    | some d0 =>
      let d := applyBusinessPatch d0 patch now
      let st2 := setBusiness st uid businessId d
      let evs := emitInline oc.io oc.emitOk ("user:" ++ uid)
        "business:updated" (.biz businessId d)
      ⟨st2, 200, true, none, evs⟩

/-- Translation of `DELETE /businesses/:businessId`: deletes the document
(idempotent; child products are not cascaded), emits one inline
`business:deleted`, responds 200. -/
def removeBusinessRoute (st : State) (uid businessId : String)
    (oc : Oracles) (_now : Nat) : RouteResult :=
  let st2 := removeBusiness st uid businessId
  let evs := emitInline oc.io oc.emitOk ("user:" ++ uid) "business:deleted"
    (.bizIdOnly businessId)
  ⟨st2, 200, true, none, evs⟩

/-- Translation of `POST /businesses/upload/:businessId/logo`: rejects a
missing file with 400; a storage failure is a 500 with no commit; otherwise
merge-writes `{ logoUrl: url, updatedAt: now }` (creating a document with
only those fields on a missing id), emits one inline `business:updated`
with the re-fetched document, responds 200. -/
def uploadBusinessLogo (st : State) (uid businessId : String)
    (file : Option String) (oc : Oracles) (now : Nat) : RouteResult :=
  match file with
  | none => ⟨st, 400, false, none, []⟩
  | some _ =>
    match oc.storage with
    | .throws => ⟨st, 500, false, none, []⟩
    | .ok url =>
      let d0 := (st.businesses uid businessId).getD emptyBusinessDoc
      let d := { d0 with logoUrl := some url, updatedAt := some now }
      let st2 := setBusiness st uid businessId d
      let evs := emitInline oc.io oc.emitOk ("user:" ++ uid)
        "business:updated" (.biz businessId d)
      ⟨st2, 200, true, none, evs⟩

/-- The mutating operations of the HTTP surface: the six product routes and
the four business routes. -/
inductive Op where
  | createOne (businessId : String) (body : ProductInput)
  | batchUp (businessId : Option String) (info : BusinessInput)
      (items : Option (List ProductInput))
  | fieldUpdate (businessId productId : String) (patch : ProductPatch)
  | imageUp (businessId productId : String) (file : Option String)
  | generateAd (businessId productId : Option String)
  | removeOne (businessId productId : String)
  | bizCreate (newId : String) (body : BusinessInput)
  | bizUpdate (businessId : String) (patch : BusinessPatch)
  | bizRemove (businessId : String)
  | bizLogo (businessId : String) (file : Option String)
  deriving DecidableEq, Repr

/-- Dispatch one authenticated request (the verified identity `uid` scopes
every storage path and the event room) to its route handler. -/
def runOp (st : State) (uid : String) (op : Op) (oc : Oracles) (now : Nat) :
    RouteResult :=
  match op with
  | .createOne b body => createProductRoute st uid b body oc now
  | .batchUp b info items => uploadProducts st uid b info items oc now
  | .fieldUpdate b p patch => updateProductFields st uid b p patch oc now
  | .imageUp b p f => uploadProductImage st uid b p f oc now
  | .generateAd b p => generateAdImage st uid b p oc now
  | .removeOne b p => removeProductRoute st uid b p oc now
  | .bizCreate newId body => createBusinessRoute st uid body newId oc now
  | .bizUpdate b patch => updateBusinessRoute st uid b patch oc now
  | .bizRemove b => removeBusinessRoute st uid b oc now
  | .bizLogo b f => uploadBusinessLogo st uid b f oc now

/-- The timestamp invariant of §8 of the spec, as a boolean predicate on a
stored document (vacuously true when either timestamp is absent). -/
def prodInvB (d : ProductDoc) : Bool :=
  match d.createdAt, d.updatedAt with
  | some c, some u => decide (c ≤ u)
  | _, _ => true

/-! ### Basic store lemmas and concrete sample data -/

theorem setBusiness_products (st : State) (u b : String) (d : BusinessDoc) :
    (setBusiness st u b d).products = st.products := rfl

theorem setProduct_products (st : State) (u b p : String) (d : ProductDoc)
    (u' b' p' : String) :
    (setProduct st u b p d).products u' b' p' =
      if u' = u ∧ b' = b ∧ p' = p then some d else st.products u' b' p' := rfl

theorem setProduct_self (st : State) (u b p : String) (d : ProductDoc) :
    (setProduct st u b p d).products u b p = some d := by
  simp [setProduct_products]

theorem removeProduct_products (st : State) (u b p : String)
    (u' b' p' : String) :
    (removeProduct st u b p).products u' b' p' =
      if u' = u ∧ b' = b ∧ p' = p then none else st.products u' b' p' := rfl

theorem mergeCreate_createdAt (e : Option ProductDoc) (p : ProductInput)
    (now : Nat) : (mergeCreate e p now).createdAt = some now := by
  cases e <;> rfl

theorem mergeCreate_updatedAt (e : Option ProductDoc) (p : ProductInput)
    (now : Nat) : (mergeCreate e p now).updatedAt = some now := by
  cases e <;> rfl

theorem mergeCreate_status (e : Option ProductDoc) (p : ProductInput)
    (now : Nat) :
    (mergeCreate e p now).status = some (jsOrStr p.status "pending") := by
  cases e <;> rfl

theorem prodInvB_mergeCreate (e : Option ProductDoc) (p : ProductInput)
    (now : Nat) : prodInvB (mergeCreate e p now) = true := by
  unfold prodInvB
  rw [mergeCreate_createdAt, mergeCreate_updatedAt]
  simp

theorem prodInvB_of_refreshed (d0 d : ProductDoc) (now : Nat)
    (h : ∀ c, d0.createdAt = some c → c ≤ now)
    (hc : d.createdAt = d0.createdAt) (hu : d.updatedAt = some now) :
    prodInvB d = true := by
  unfold prodInvB
  rw [hc, hu]
  cases h0 : d0.createdAt with
  | none => rfl
  | some c => simp [h c h0]

/-- Sample single-product request body. -/
def lampInput : ProductInput :=
  { emptyInput with name := some "Lamp", price := some "20" }

/-- Sample stored product mid-generation: the source image and prompt are
present and the status is `processing`. -/
def procDoc : ProductDoc :=
  { emptyDoc with
    id := some "p1"
    businessId := some "b1"
    name := some "Lamp"
    price := some "20"
    imageUrl := some "https://img.example/lamp.png"
    imagePrompt := some "make it pop"
    status := some "processing"
    createdAt := some 1
    updatedAt := some 2 }

/-- Sample store: one user `alice` owning business `b1` with product `p1`. -/
def st1 : State := setProduct emptyState "alice" "b1" "p1" procDoc

/-- Oracles of an entirely successful environment. -/
def okOracles : Oracles :=
  { io := true, emitOk := true, fetchOk := true
  , openai := .ok "b64data", storage := .ok "https://signed.example/gen.png" }

/-! ### C5: generation precondition failure -/

/-- Claim C5: a generate-ad-image call on an existing Product whose
`imageUrl` or `imagePrompt` is missing is rejected with a 400 validation
error, the store is left exactly as it was, and no event is published —
for every oracle environment, i.e. before and independent of any external
call. -/
theorem generate_reject_missing_fields
    (st : State) (uid : String) (businessId productId : Option String)
    (oc : Oracles) (now : Nat) (d : ProductDoc)
    (hb : jsTruthy businessId = true) (hp : jsTruthy productId = true)
    (hu : (uid == "") = false)
    (hd : getProduct st uid (businessId.getD "") (productId.getD "") = some d)
    (hmiss : jsTruthy d.imageUrl = false ∨ jsTruthy d.imagePrompt = false) :
    (generateAdImage st uid businessId productId oc now).statusCode = 400 ∧
    (generateAdImage st uid businessId productId oc now).success = false ∧
    (generateAdImage st uid businessId productId oc now).store = st ∧
    (generateAdImage st uid businessId productId oc now).events = [] := by
  have himg : (jsTruthy d.imageUrl && jsTruthy d.imagePrompt) = false := by
    rcases hmiss with h | h <;> simp [h]
  unfold generateAdImage
  simp [hb, hp, hu, hd, himg]

/-- Sample stored product that is missing its `imagePrompt`. -/
def noPromptDoc : ProductDoc := { procDoc with imagePrompt := none }

/-- Sample store holding only `noPromptDoc`. -/
def stNoPrompt : State := setProduct emptyState "alice" "b1" "p1" noPromptDoc

/-- Witness for C5 at a concrete store, product and environment. -/
theorem generate_reject_missing_fields_witness :
    (generateAdImage stNoPrompt "alice" (some "b1") (some "p1") okOracles
        7).statusCode = 400 ∧
    (generateAdImage stNoPrompt "alice" (some "b1") (some "p1") okOracles
        7).success = false ∧
    (generateAdImage stNoPrompt "alice" (some "b1") (some "p1") okOracles
        7).store = stNoPrompt ∧
    (generateAdImage stNoPrompt "alice" (some "b1") (some "p1") okOracles
        7).events = [] :=
  generate_reject_missing_fields stNoPrompt "alice" (some "b1") (some "p1")
    okOracles 7 noPromptDoc (by decide) (by decide) (by decide) (by decide)
    (Or.inr (by decide))

/-! ### C6: field update on a nonexistent product -/

/-- Claim C6: a field-update call on a Product id that does not exist
leaves the store untouched (no document is silently created), publishes no
event, does not succeed, and — whenever the request body is non-empty, so
it gets past the emptiness validation — answers 404. -/
theorem update_missing_product_rejected
    (st : State) (uid businessId productId : String) (patch : ProductPatch)
    (oc : Oracles) (now : Nat)
    (habs : getProduct st uid businessId productId = none) :
    (updateProductFields st uid businessId productId patch oc now).store = st ∧
    (updateProductFields st uid businessId productId patch oc now).events
      = [] ∧
    (updateProductFields st uid businessId productId patch oc now).success
      = false ∧
    (patchIsEmpty patch = false →
      (updateProductFields st uid businessId productId patch oc
          now).statusCode = 404) := by
  unfold updateProductFields
  cases hpe : patchIsEmpty patch <;> simp [habs, hpe]

/-- Witness for C6: updating a product that was never created, in an empty
store, with a non-empty patch. -/
theorem update_missing_product_rejected_witness :
    (updateProductFields emptyState "alice" "b1" "ghost"
        { emptyPatch with description := some "x" } okOracles 4).store
      = emptyState ∧
    (updateProductFields emptyState "alice" "b1" "ghost"
        { emptyPatch with description := some "x" } okOracles 4).events
      = [] ∧
    (updateProductFields emptyState "alice" "b1" "ghost"
        { emptyPatch with description := some "x" } okOracles 4).success
      = false ∧
    (patchIsEmpty { emptyPatch with description := some "x" } = false →
      (updateProductFields emptyState "alice" "b1" "ghost"
          { emptyPatch with description := some "x" } okOracles
          4).statusCode = 404) :=
  update_missing_product_rejected emptyState "alice" "b1" "ghost"
    { emptyPatch with description := some "x" } okOracles 4 (by decide)

/-! ### C4: successful generation yields enriched -/

/-- Claim C4: whenever a generate-ad-image call completes successfully, the
stored Product ends with `status = "enriched"` and a non-null
`generatedImageUrl` — in particular it is never left at `processing` or
`pending`. -/
theorem generate_success_enriched
    (st : State) (uid : String) (businessId productId : Option String)
    (oc : Oracles) (now : Nat)
    (h : (generateAdImage st uid businessId productId oc now).success
      = true) :
    ((generateAdImage st uid businessId productId oc now).store.products uid
        (businessId.getD "") (productId.getD "")).map
      (fun d => (d.status, d.generatedImageUrl.isSome)) =
    some (some "enriched", true) := by
  unfold generateAdImage at h ⊢
  split at h
  next hc => simp at h
  next hc =>
    rw [if_neg hc]
    cases hd : getProduct st uid (businessId.getD "") (productId.getD "") with
    | none => simp only [hd] at h; simp at h
    | some d0 =>
      simp only [hd] at h ⊢
      split at h
      next hi => simp at h
      next hi =>
        rw [if_neg hi]
        split at h
        next hf => simp [failResult] at h
        next hf =>
          rw [if_neg hf]
          cases ho : oc.openai with
          | throws => simp only [ho] at h; simp [failResult] at h
          | invalid => simp only [ho] at h; simp at h
          | ok b64 =>
            simp only [ho] at h ⊢
            cases hs : oc.storage with
            | throws => simp only [hs] at h; simp [failResult] at h
            | ok url =>
              simp only [hs]
              simp [setProduct]

/-- Witness for C4: a concrete call whose download, OpenAI request and
storage save all succeed. -/
theorem generate_success_enriched_witness :
    ((generateAdImage st1 "alice" (some "b1") (some "p1") okOracles
        9).store.products "alice" "b1" "p1").map
      (fun d => (d.status, d.generatedImageUrl.isSome)) =
    some (some "enriched", true) :=
  generate_success_enriched st1 "alice" (some "b1") (some "p1") okOracles 9
    (by decide)

/-! ### C1: generation failure handling -/

/-- Oracles of an environment where OpenAI answers 200 but the body has no
`data[0].b64_json`. -/
def invalidOracles : Oracles :=
  { io := true, emitOk := true, fetchOk := true
  , openai := .invalid, storage := .ok "https://signed.example/gen.png" }

/-- Claim C1, evaluated at the failing input: on a Product that satisfies
every precondition (it exists and has both `imageUrl` and `imagePrompt`),
a generation that does not complete successfully because OpenAI returned no
valid image data ends with HTTP 500 and `success = false`, yet the stored
Product is completely untouched: its status is still `processing`, not
`failed`, and it has no `errorMessage` and no `failedAt`; no event is
published.  This contradicts the claim that every unsuccessful generation
forces `status = failed` with a non-null `errorMessage`. -/
theorem invalid_openai_leaves_product_unchanged :
    (generateAdImage st1 "alice" (some "b1") (some "p1") invalidOracles
        9).statusCode = 500 ∧
    (generateAdImage st1 "alice" (some "b1") (some "p1") invalidOracles
        9).success = false ∧
    (generateAdImage st1 "alice" (some "b1") (some "p1") invalidOracles
        9).events = [] ∧
    (generateAdImage st1 "alice" (some "b1") (some "p1") invalidOracles
        9).store.products "alice" "b1" "p1" = some procDoc ∧
    procDoc.imageUrl.isSome = true ∧
    procDoc.imagePrompt.isSome = true ∧
    procDoc.status = some "processing" ∧
    procDoc.errorMessage = none ∧
    procDoc.failedAt = none := by decide

/-! ### C2: one event per committed product mutation -/

/-- Claim C2, evaluated at the failing input: a batch upload of one product
for user `alice` commits the creation of a Product document that did not
exist before, responds success with `savedCount = 1`, and publishes zero
events — even with a live Socket.IO server and a working transport.  This
contradicts the claim (and the repository's own Socket.IO event contract,
which lists `POST /products/upload` as a trigger of `product:created`)
that every committed create publishes exactly one event to `user:alice`. -/
theorem batch_upload_commits_create_without_event :
    emptyState.products "alice" "b1" (md5hex "Lamp") = none ∧
    (runOp emptyState "alice"
        (.batchUp (some "b1") emptyBusinessInput (some [lampInput]))
        okOracles 3).store.products "alice" "b1" (md5hex "Lamp")
      = some (mergeCreate none (batchItemInput lampInput) 3) ∧
    (runOp emptyState "alice"
        (.batchUp (some "b1") emptyBusinessInput (some [lampInput]))
        okOracles 3).savedCount = some 1 ∧
    (runOp emptyState "alice"
        (.batchUp (some "b1") emptyBusinessInput (some [lampInput]))
        okOracles 3).statusCode = 200 ∧
    (runOp emptyState "alice"
        (.batchUp (some "b1") emptyBusinessInput (some [lampInput]))
        okOracles 3).success = true ∧
    (runOp emptyState "alice"
        (.batchUp (some "b1") emptyBusinessInput (some [lampInput]))
        okOracles 3).events = [] := by decide

/-! ### C3: creation status override -/

/-- Sample creation body that explicitly asks for `status: "posted"`. -/
def postedBody : ProductInput := { lampInput with status := some "posted" }

/-- Counterexample to claim C3: creating a product whose body explicitly
supplies `status: "posted"` stores `status = "pending"` — the creation
route puts `status: STATUS.PENDING` after the body spread, so the
caller-supplied status does not survive. -/
theorem create_posted_status_stored_pending :
    postedBody.status = some "posted" ∧
    ((runOp emptyState "alice" (.createOne "b1" postedBody) okOracles
          7).store.products "alice" "b1" (md5hex "Lamp7")).map
        ProductDoc.status = some (some "pending") ∧
    (some (some "pending") : Option (Option String))
      ≠ some (some "posted") := by decide

/-- Pointwise description of the batch-upload write loop: a product-store
entry after the loop is either exactly what it was before, or the
`createProduct`-merge of some item of the list, stored under that item's
derived document id. -/
theorem batch_foldl_lookup (uid bid : String) (now : Nat)
    (ps : List ProductInput) (st : State) (u b p : String) :
    (ps.foldl (applyBatchItem uid bid now) st).products u b p
      = st.products u b p ∨
    ∃ q e, q ∈ ps ∧ u = uid ∧ b = bid ∧ p = batchDocId q ∧
      (ps.foldl (applyBatchItem uid bid now) st).products u b p
        = some (mergeCreate e (batchItemInput q) now) := by
  induction ps generalizing st with
  | nil => exact Or.inl rfl
  | cons r tl ih =>
    simp only [List.foldl_cons]
    rcases ih (applyBatchItem uid bid now st r) with h | ⟨q, e, hq, hu, hb, hp, h⟩
    · simp only [applyBatchItem, setProduct_products] at h
      by_cases hkey : u = uid ∧ b = bid ∧ p = batchDocId r
      · rw [if_pos hkey] at h
        exact Or.inr ⟨r, getProduct st uid bid (batchDocId r),
          List.mem_cons_self r tl, hkey.1, hkey.2.1, hkey.2.2, h⟩
      · rw [if_neg hkey] at h
        exact Or.inl h
    · exact Or.inr ⟨q, e, List.mem_cons_of_mem r hq, hu, hb, hp, h⟩

/-- Claim C3 as amended: every create call stores `status = "pending"`
regardless of any caller-supplied status.  First conjunct: the single
create route's stored document (at the derived document id) has status
`pending` for every body with a truthy name.  Second conjunct: every
document the batch-upload route creates where none existed has status
`pending`. -/
theorem create_status_forced_pending
    (st : State) (uid businessId : String) (body : ProductInput)
    (oc : Oracles) (now : Nat) (hname : jsTruthy body.name = true)
    (st' : State) (uid' : String) (businessId' : Option String)
    (info : BusinessInput) (items : Option (List ProductInput))
    (oc' : Oracles) (now' : Nat) (u b p : String) (d : ProductDoc)
    (hnew : st'.products u b p = none)
    (hd : (uploadProducts st' uid' businessId' info items oc'
        now').store.products u b p = some d) :
    (((createProductRoute st uid businessId body oc now).store.products uid
        businessId
        (jsOrStr body.id (md5hex (jsOrStr body.name "" ++ toString
          now)))).map ProductDoc.status = some (some "pending")) ∧
    d.status = some "pending" := by
  constructor
  · unfold createProductRoute
    simp only [hname, Bool.not_true, Bool.false_eq_true, if_false,
      setProduct_products]
    simp [mergeCreate_status, jsOrStr]
  · unfold uploadProducts at hd
    split at hd
    · exact Option.noConfusion (hnew.symm.trans hd)
    · rcases batch_foldl_lookup uid' (businessId'.getD "") now'
          (items.getD []) (batchSeed st' uid' (businessId'.getD "") info
            now') u b p with hsame | ⟨q, e, _, _, _, _, heq⟩
      · have hfin : (none : Option ProductDoc) = some d := by
          rw [← hnew]
          show (batchSeed st' uid' (businessId'.getD "") info
            now').products u b p = some d
          rw [← hsame]
          exact hd
        exact Option.noConfusion hfin
      · have hfin : some d = some (mergeCreate e (batchItemInput q) now') :=
          hd.symm.trans heq
        obtain rfl : d = mergeCreate e (batchItemInput q) now' :=
          Option.some_injective _ hfin
        rw [mergeCreate_status]
        simp [batchItemInput, jsOrStr]

/-- Witness for C3's amended theorem: a concrete single create (with a body
asking for `posted`) and a concrete batch creation into an empty store. -/
theorem create_status_forced_pending_witness :
    (((createProductRoute emptyState "alice" "b1" postedBody okOracles
        7).store.products "alice" "b1"
        (jsOrStr postedBody.id (md5hex (jsOrStr postedBody.name ""
          ++ toString 7)))).map ProductDoc.status
      = some (some "pending")) ∧
    (mergeCreate none (batchItemInput lampInput) 3).status
      = some "pending" :=
  create_status_forced_pending emptyState "alice" "b1" postedBody okOracles 7
    (by decide) emptyState "alice" (some "b1") emptyBusinessInput
    (some [lampInput]) okOracles 3 "alice" "b1" (md5hex "Lamp")
    (mergeCreate none (batchItemInput lampInput) 3) (by decide) (by decide)

/-! ### C9: createdAt stability -/

/-- Batch item that re-uses the already existing document id `p1`. -/
def reUploadItem : ProductInput :=
  { emptyInput with id := some "p1", name := some "Lamp v2" }

/-- Counterexample to claim C9: the product `p1` was created with
`createdAt = 1`, but a batch re-upload of an item with the same id at time
5 leaves the stored document with `createdAt = 5` — the batch route funnels
existing ids through `createProduct`, which unconditionally overwrites
`createdAt` with the current server timestamp. -/
theorem batch_reupload_resets_createdAt :
    (st1.products "alice" "b1" "p1").map ProductDoc.createdAt
      = some (some 1) ∧
    ((runOp st1 "alice"
        (.batchUp (some "b1") emptyBusinessInput (some [reUploadItem]))
        okOracles 5).store.products "alice" "b1" "p1").map
      ProductDoc.createdAt = some (some 5) ∧
    (some (some 5) : Option (Option Nat)) ≠ some (some 1) := by decide

/-- Store entry after a single `setProduct`: either the entry was already
there untouched, or it is the newly written document. -/
theorem lookup_after_set (st : State) (uid bid pid : String)
    (dNew : ProductDoc) (u b p : String) (d' : ProductDoc)
    (hafter : (setProduct st uid bid pid dNew).products u b p = some d') :
    st.products u b p = some d' ∨ d' = dNew := by
  rw [setProduct_products] at hafter
  by_cases hkey : u = uid ∧ b = bid ∧ p = pid
  · rw [if_pos hkey] at hafter
    exact Or.inr (Option.some_injective _ hafter).symm
  · rw [if_neg hkey] at hafter
    exact Or.inl hafter

/-- Store entry after a single `setProduct`, when the entry existed before:
either untouched, or it is the new document and the write happened at this
very path (so the pre-existing document there is the one that was read). -/
theorem lookup_after_set_of_before (st : State) (uid bid pid : String)
    (dNew : ProductDoc) (u b p : String) (d d' : ProductDoc)
    (hbefore : st.products u b p = some d)
    (hafter : (setProduct st uid bid pid dNew).products u b p = some d') :
    d' = d ∨ (d' = dNew ∧ st.products uid bid pid = some d) := by
  rw [setProduct_products] at hafter
  by_cases hkey : u = uid ∧ b = bid ∧ p = pid
  · rw [if_pos hkey] at hafter
    obtain ⟨rfl, rfl, rfl⟩ := hkey
    exact Or.inr ⟨(Option.some_injective _ hafter).symm, hbefore⟩
  · rw [if_neg hkey] at hafter
    exact Or.inl (Option.some_injective _ (hbefore.symm.trans hafter)).symm

/-- Claim C9 as amended: a single image upload, both generation outcome
handlers, and every field update whose body does not include a `createdAt`
key leave `createdAt` unchanged on every stored Product.  The creation
routes (single create and batch upload, which both funnel through
`createProduct`) reset it, and a field update that supplies `createdAt`
overwrites it, because the PATCH route merge-writes the raw body. -/
theorem createdAt_preserved_by_updates
    (st : State) (uid : String) (op : Op) (oc : Oracles) (now : Nat)
    (hop : match op with
      | .fieldUpdate _ _ patch => patch.createdAt = none
      | .imageUp _ _ _ => True
      | .generateAd _ _ => True
      | _ => False)
    (u b p : String) (d d' : ProductDoc)
    (hbefore : st.products u b p = some d)
    (hafter : (runOp st uid op oc now).store.products u b p = some d') :
    d'.createdAt = d.createdAt := by
  have same_doc : ∀ {x : ProductDoc},
      st.products u b p = some x → x.createdAt = d.createdAt := by
    intro x hx
    rw [Option.some_injective _ (hbefore.symm.trans hx)]
  cases op with
  | createOne bid body => exact absurd hop (by simp)
  | batchUp bid info items => exact absurd hop (by simp)
  | removeOne bid pid => exact absurd hop (by simp)
  | bizCreate newId body => exact absurd hop (by simp)
  | bizUpdate bid patch => exact absurd hop (by simp)
  | bizRemove bid => exact absurd hop (by simp)
  | bizLogo bid file => exact absurd hop (by simp)
  | fieldUpdate bid pid patch =>
    have hp : patch.createdAt = none := hop
    simp only [runOp, updateProductFields] at hafter
    split at hafter
    · exact same_doc hafter
    · split at hafter
      · exact same_doc hafter
      · next d0 hd0 =>
        rcases lookup_after_set_of_before st uid bid pid _ u b p d d'
            hbefore hafter with rfl | ⟨rfl, hb2⟩
        · rfl
        · have hdd : d0 = d := Option.some_injective _ (hd0.symm.trans hb2)
          show (applyPatch d0 patch now).createdAt = d.createdAt
          simp only [applyPatch, hp]
          rw [hdd]
  | imageUp bid pid file =>
    simp only [runOp, uploadProductImage] at hafter
    cases file with
    | none => exact same_doc hafter
    | some f =>
      cases hs : oc.storage with
      | throws => rw [hs] at hafter; exact same_doc hafter
      | ok url =>
        rw [hs] at hafter
        rcases lookup_after_set_of_before st uid bid pid _ u b p d d'
            hbefore hafter with rfl | ⟨rfl, hb2⟩
        · rfl
        · show ((getProduct st uid bid pid).getD emptyDoc).createdAt
            = d.createdAt
          show ((st.products uid bid pid).getD emptyDoc).createdAt
            = d.createdAt
          rw [hb2]
          rfl
  | generateAd bid pid =>
    simp only [runOp, generateAdImage] at hafter
    split at hafter
    · exact same_doc hafter
    · split at hafter
      · exact same_doc hafter
      · next d0 hd0 =>
        have hd0' : st.products uid (bid.getD "") (pid.getD "") = some d0 := hd0
        split at hafter
        · exact same_doc hafter
        · split at hafter
          · simp only [failResult] at hafter
            rcases lookup_after_set_of_before st uid (bid.getD "")
                (pid.getD "") _ u b p d d' hbefore hafter with rfl | ⟨rfl, hb2⟩
            · rfl
            · show d0.createdAt = d.createdAt
              rw [Option.some_injective _ (hd0'.symm.trans hb2)]
          · cases ho : oc.openai with
            | throws =>
              rw [ho] at hafter
              simp only [failResult] at hafter
              rcases lookup_after_set_of_before st uid (bid.getD "")
                  (pid.getD "") _ u b p d d' hbefore hafter with
                rfl | ⟨rfl, hb2⟩
              · rfl
              · show d0.createdAt = d.createdAt
                rw [Option.some_injective _ (hd0'.symm.trans hb2)]
            | invalid => rw [ho] at hafter; exact same_doc hafter
            | ok b64 =>
              rw [ho] at hafter
              cases hs : oc.storage with
              | throws =>
                rw [hs] at hafter
                simp only [failResult] at hafter
                rcases lookup_after_set_of_before st uid (bid.getD "")
                    (pid.getD "") _ u b p d d' hbefore hafter with
                  rfl | ⟨rfl, hb2⟩
                · rfl
                · show d0.createdAt = d.createdAt
                  rw [Option.some_injective _ (hd0'.symm.trans hb2)]
              | ok url =>
                rw [hs] at hafter
                rcases lookup_after_set_of_before st uid (bid.getD "")
                    (pid.getD "") _ u b p d d' hbefore hafter with
                  rfl | ⟨rfl, hb2⟩
                · rfl
                · show d0.createdAt = d.createdAt
                  rw [Option.some_injective _ (hd0'.symm.trans hb2)]

/-- Witness for C9's amended theorem: a concrete field update of the
description leaves `createdAt` where it was. -/
theorem createdAt_preserved_by_updates_witness :
    (applyPatch procDoc { emptyPatch with description := some "x" }
        9).createdAt = procDoc.createdAt :=
  createdAt_preserved_by_updates st1 "alice"
    (.fieldUpdate "b1" "p1" { emptyPatch with description := some "x" })
    okOracles 9 rfl "alice" "b1" "p1" procDoc
    (applyPatch procDoc { emptyPatch with description := some "x" } 9)
    (by decide) (by decide)

/-! ### C8: createdAt <= updatedAt -/

/-- Counterexample to claim C8: the field-update route merge-writes the raw
request body, so `PATCH {createdAt: 100}` at server time 5 on the product
`p1` (which satisfied the invariant, `createdAt 1 <= updatedAt 2`) commits
successfully and leaves a stored document with `createdAt = 100` and
`updatedAt = 5` — the invariant `createdAt <= updatedAt` no longer holds
after this mutation. -/
theorem patch_createdAt_breaks_invariant :
    prodInvB procDoc = true ∧
    (runOp st1 "alice"
        (.fieldUpdate "b1" "p1" { emptyPatch with createdAt := some 100 })
        okOracles 5).success = true ∧
    ((runOp st1 "alice"
        (.fieldUpdate "b1" "p1" { emptyPatch with createdAt := some 100 })
        okOracles 5).store.products "alice" "b1" "p1").map
      (fun d => (d.createdAt, d.updatedAt, prodInvB d))
      = some (some 100, some 5, false) := by decide

/-- Claim C8 as amended: every operation of the HTTP surface preserves the
invariant `createdAt <= updatedAt` on every stored Product — provided a
field-update body does not itself set `createdAt` — assuming the invariant
held before the call and that the server clock never runs behind a stored
`createdAt` (server timestamps are monotone).  The proviso is forced by the
counterexample: the PATCH route does not filter the body's keys. -/
theorem timestamps_invariant_preserved
    (st : State) (uid : String) (op : Op) (oc : Oracles) (now : Nat)
    (hop : match op with
      | .fieldUpdate _ _ patch => patch.createdAt = none
      | _ => True)
    (H1 : ∀ u b p d, st.products u b p = some d → prodInvB d = true)
    (H2 : ∀ u b p d, st.products u b p = some d →
      ∀ c, d.createdAt = some c → c ≤ now)
    (u b p : String) (d : ProductDoc)
    (hd : (runOp st uid op oc now).store.products u b p = some d) :
    prodInvB d = true := by
  cases op with
  | createOne bid body =>
    simp only [runOp, createProductRoute] at hd
    split at hd
    · exact H1 u b p d hd
    · rcases lookup_after_set st uid bid _ _ u b p d hd with h | rfl
      · exact H1 u b p d h
      · exact prodInvB_mergeCreate _ _ _
  | batchUp bid info items =>
    simp only [runOp, uploadProducts] at hd
    split at hd
    · exact H1 u b p d hd
    · rcases batch_foldl_lookup uid (bid.getD "") now (items.getD [])
          (batchSeed st uid (bid.getD "") info now) u b p with
        hsame | ⟨q, e, _, _, _, _, heq⟩
      · exact H1 u b p d (hsame.symm.trans hd)
      · obtain rfl := Option.some_injective _ (hd.symm.trans heq)
        exact prodInvB_mergeCreate _ _ _
  | fieldUpdate bid pid patch =>
    simp only [runOp, updateProductFields] at hd
    split at hd
    · exact H1 u b p d hd
    · split at hd
      · exact H1 u b p d hd
      · next d0 hd0 =>
        rcases lookup_after_set st uid bid pid _ u b p d hd with h | rfl
        · exact H1 u b p d h
        · have hp : patch.createdAt = none := hop
          exact prodInvB_of_refreshed d0 _ now (H2 uid bid pid d0 hd0)
            (by simp [applyPatch, hp]) rfl
  | bizCreate newId body =>
    simp only [runOp, createBusinessRoute] at hd
    split at hd
    · exact H1 u b p d hd
    · exact H1 u b p d hd
  | bizUpdate bid patch =>
    simp only [runOp, updateBusinessRoute] at hd
    split at hd
    · exact H1 u b p d hd
    · split at hd
      · exact H1 u b p d hd
      · exact H1 u b p d hd
  | bizRemove bid =>
    simp only [runOp, removeBusinessRoute] at hd
    exact H1 u b p d hd
  | bizLogo bid file =>
    simp only [runOp, uploadBusinessLogo] at hd
    cases file with
    | none => exact H1 u b p d hd
    | some f =>
      cases hs : oc.storage with
      | throws => rw [hs] at hd; exact H1 u b p d hd
      | ok url => rw [hs] at hd; exact H1 u b p d hd
  | imageUp bid pid file =>
    simp only [runOp, uploadProductImage] at hd
    cases file with
    | none => exact H1 u b p d hd
    | some f =>
      cases hs : oc.storage with
      | throws => rw [hs] at hd; exact H1 u b p d hd
      | ok url =>
        rw [hs] at hd
        rcases lookup_after_set st uid bid pid _ u b p d hd with h | rfl
        · exact H1 u b p d h
        · cases hd0 : getProduct st uid bid pid with
          | none => simp [prodInvB, hd0, emptyDoc]
          | some e =>
            exact prodInvB_of_refreshed e _ now (H2 uid bid pid e hd0)
              rfl rfl
  | generateAd bid pid =>
    simp only [runOp, generateAdImage] at hd
    split at hd
    · exact H1 u b p d hd
    · split at hd
      · exact H1 u b p d hd
      · next d0 hd0 =>
        split at hd
        · exact H1 u b p d hd
        · split at hd
          · simp only [failResult] at hd
            rcases lookup_after_set st uid _ _ _ u b p d hd with h | rfl
            · exact H1 u b p d h
            · exact prodInvB_of_refreshed d0 _ now
                (H2 uid (bid.getD "") (pid.getD "") d0 hd0) rfl rfl
          · cases ho : oc.openai with
            | throws =>
              rw [ho] at hd
              simp only [failResult] at hd
              rcases lookup_after_set st uid _ _ _ u b p d hd with h | rfl
              · exact H1 u b p d h
              · exact prodInvB_of_refreshed d0 _ now
                  (H2 uid (bid.getD "") (pid.getD "") d0 hd0) rfl rfl
            | invalid => rw [ho] at hd; exact H1 u b p d hd
            | ok b64 =>
              rw [ho] at hd
              cases hs : oc.storage with
              | throws =>
                rw [hs] at hd
                simp only [failResult] at hd
                rcases lookup_after_set st uid _ _ _ u b p d hd with h | rfl
                · exact H1 u b p d h
                · exact prodInvB_of_refreshed d0 _ now
                    (H2 uid (bid.getD "") (pid.getD "") d0 hd0) rfl rfl
              | ok url =>
                rw [hs] at hd
                rcases lookup_after_set st uid _ _ _ u b p d hd with h | rfl
                · exact H1 u b p d h
                · exact prodInvB_of_refreshed d0 _ now
                    (H2 uid (bid.getD "") (pid.getD "") d0 hd0) rfl rfl
  | removeOne bid pid =>
    simp only [runOp, removeProductRoute] at hd
    split at hd
    · exact H1 u b p d hd
    · rw [removeProduct_products] at hd
      split at hd
      · exact Option.noConfusion hd
      · exact H1 u b p d hd

/-- Witness for C8: a concrete store satisfying the hypotheses at server
time 5, and a concrete operation after which the invariant still holds on
the stored product. -/
theorem timestamps_invariant_preserved_witness :
    prodInvB procDoc = true :=
  timestamps_invariant_preserved st1 "alice" (.removeOne "b2" "p2")
    okOracles 5 trivial
    (by
      intro u b p d h
      simp only [st1, setProduct, emptyState] at h
      split at h
      · obtain rfl := Option.some_injective _ h
        decide
      · exact Option.noConfusion h)
    (by
      intro u b p d h
      simp only [st1, setProduct, emptyState] at h
      split at h
      · obtain rfl := Option.some_injective _ h
        intro c hc
        have h1 : procDoc.createdAt = some 1 := by decide
        rw [h1] at hc
        obtain rfl := Option.some_injective _ hc
        decide
      · exact Option.noConfusion h)
    "alice" "b1" "p1" procDoc (by decide)

/-! ### C7: publish failures never affect commit or response -/

/-- Claim C7: for every mutating operation of the HTTP surface — the six
product routes, which publish through the `socketEmitter` helpers, and the
four business routes, which publish through their own inline
`io?.to(...).emit` try/catch blocks — the committed store and the HTTP
response (status code, success flag, savedCount) are identical whether or
not a Socket.IO server is available and whether or not the emit throws;
only the delivered events can differ.  A publish failure therefore never
rolls back a committed mutation and never fails the request. -/
theorem publish_failure_never_affects_commit
    (st : State) (uid : String) (op : Op) (now : Nat) (oc oc' : Oracles)
    (hf : oc.fetchOk = oc'.fetchOk) (ho : oc.openai = oc'.openai)
    (hs : oc.storage = oc'.storage) :
    (runOp st uid op oc now).store = (runOp st uid op oc' now).store ∧
    (runOp st uid op oc now).statusCode
      = (runOp st uid op oc' now).statusCode ∧
    (runOp st uid op oc now).success = (runOp st uid op oc' now).success ∧
    (runOp st uid op oc now).savedCount
      = (runOp st uid op oc' now).savedCount := by
  obtain ⟨io, em, f, oa, sg⟩ := oc
  obtain ⟨io', em', f', oa', sg'⟩ := oc'
  have hf2 : f = f' := hf
  have ho2 : oa = oa' := ho
  have hs2 : sg = sg' := hs
  subst hf2; subst ho2; subst hs2
  cases op <;>
    simp only [runOp, createProductRoute, uploadProducts, updateProductFields,
      uploadProductImage, generateAdImage, removeProductRoute, failResult,
      createBusinessRoute, updateBusinessRoute, removeBusinessRoute,
      uploadBusinessLogo] <;>
    (repeat' split) <;>
    simp

/-- Oracles whose external collaborators behave exactly like `okOracles`
but with no Socket.IO server and a throwing transport. -/
def deadIoOracles : Oracles :=
  { io := false, emitOk := false, fetchOk := true
  , openai := .ok "b64data", storage := .ok "https://signed.example/gen.png" }

/-- Witness for C7: a concrete field update committed under a healthy and
under a dead event transport yields the same store and response. -/
theorem publish_failure_never_affects_commit_witness :
    (runOp st1 "alice"
        (.fieldUpdate "b1" "p1" { emptyPatch with description := some "x" })
        okOracles 9).store
      = (runOp st1 "alice"
        (.fieldUpdate "b1" "p1" { emptyPatch with description := some "x" })
        deadIoOracles 9).store ∧
    (runOp st1 "alice"
        (.fieldUpdate "b1" "p1" { emptyPatch with description := some "x" })
        okOracles 9).statusCode
      = (runOp st1 "alice"
        (.fieldUpdate "b1" "p1" { emptyPatch with description := some "x" })
        deadIoOracles 9).statusCode ∧
    (runOp st1 "alice"
        (.fieldUpdate "b1" "p1" { emptyPatch with description := some "x" })
        okOracles 9).success
      = (runOp st1 "alice"
        (.fieldUpdate "b1" "p1" { emptyPatch with description := some "x" })
        deadIoOracles 9).success ∧
    (runOp st1 "alice"
        (.fieldUpdate "b1" "p1" { emptyPatch with description := some "x" })
        okOracles 9).savedCount
      = (runOp st1 "alice"
        (.fieldUpdate "b1" "p1" { emptyPatch with description := some "x" })
        deadIoOracles 9).savedCount :=
  publish_failure_never_affects_commit st1 "alice"
    (.fieldUpdate "b1" "p1" { emptyPatch with description := some "x" })
    9 okOracles deadIoOracles rfl rfl rfl

/-! ### C10: duplicate names in a batch upload -/

/-- Replacing absent `errorMessage`/`failedAt` by their absent selves is the
identity on a document (record-eta fact used for the batch merge). -/
theorem update_err_eta (X : ProductDoc) (he : X.errorMessage = none)
    (hfa : X.failedAt = none) :
    ({ X with errorMessage := none, failedAt := none } : ProductDoc) = X := by
  cases X
  simp_all

/-- Merging a `createProduct` output over an existing document whose
`errorMessage`/`failedAt` are absent, for an input carrying neither key,
equals a plain `createProduct` of the input. -/
theorem mergeCreate_some_clean (e : ProductDoc) (q : ProductInput)
    (now : Nat) (hqe : q.errorMessage = none) (hqf : q.failedAt = none)
    (hee : e.errorMessage = none) (hef : e.failedAt = none) :
    mergeCreate (some e) q now = createProduct q now := by
  unfold mergeCreate
  simp only [hqe, hqf, hee, hef]
  exact update_err_eta (createProduct q now) hqe hqf

/-- Claim C10: in a batch upload, an item without an explicit id is stored
under `md5(name)` (with the `Name`/`"unnamed"` fallbacks), so two id-less
items with the same name collide: both write to the one document, the
final document is exactly the `createProduct` of the *second* item, the
only product-store entry the call changes is that one document, and the
response still reports `savedCount = 2` — the number of request items, not
of documents written. -/
theorem batch_duplicate_names_collapse
    (st : State) (uid : String) (businessId : Option String)
    (info : BusinessInput) (p q : ProductInput) (oc : Oracles) (now : Nat)
    (u b p' : String)
    (huid : (uid == "") = false) (hbid : jsTruthy businessId = true)
    (hpid : p.id = none) (hqid : q.id = none)
    (hname : jsOrStr p.name (jsOrStr p.nameUpper "unnamed")
      = jsOrStr q.name (jsOrStr q.nameUpper "unnamed"))
    (hfresh : st.products uid (businessId.getD "") (batchDocId q) = none)
    (hpe : p.errorMessage = none) (hpf : p.failedAt = none)
    (hqe : q.errorMessage = none) (hqf : q.failedAt = none)
    (hne : (uploadProducts st uid businessId info (some [p, q]) oc
        now).store.products u b p' ≠ st.products u b p') :
    batchDocId p = batchDocId q ∧
    batchDocId q = md5hex (jsOrStr q.name (jsOrStr q.nameUpper "unnamed")) ∧
    (uploadProducts st uid businessId info (some [p, q]) oc
        now).store.products uid (businessId.getD "") (batchDocId q)
      = some (createProduct (batchItemInput q) now) ∧
    (uploadProducts st uid businessId info (some [p, q]) oc now).savedCount
      = some 2 ∧
    (u = uid ∧ b = businessId.getD "" ∧ p' = batchDocId q) := by
  have hkp : batchDocId p = batchDocId q := by
    unfold batchDocId
    rw [hpid, hqid, hname]
  have hguard : ¬((uid == "" ||
      !jsTruthy businessId || (some [p, q] : Option
        (List ProductInput)).isNone) = true) := by
    simp [huid, hbid]
  have hstore : (uploadProducts st uid businessId info (some [p, q]) oc
      now).store = applyBatchItem uid (businessId.getD "") now
        (applyBatchItem uid (businessId.getD "") now
          (batchSeed st uid (businessId.getD "") info now) p) q := by
    unfold uploadProducts
    rw [if_neg hguard]
    rfl
  have hfresh1 : getProduct (batchSeed st uid (businessId.getD "") info now)
      uid (businessId.getD "") (batchDocId p) = none := by
    rw [hkp]; exact hfresh
  have h1 : applyBatchItem uid (businessId.getD "") now
      (batchSeed st uid (businessId.getD "") info now) p
      = setProduct (batchSeed st uid (businessId.getD "") info now) uid
        (businessId.getD "") (batchDocId q)
        (createProduct (batchItemInput p) now) := by
    simp only [applyBatchItem]
    rw [hfresh1, hkp]
    rfl
  have hget2 : getProduct
      (setProduct (batchSeed st uid (businessId.getD "") info now) uid
        (businessId.getD "") (batchDocId q)
        (createProduct (batchItemInput p) now))
      uid (businessId.getD "") (batchDocId q)
      = some (createProduct (batchItemInput p) now) :=
    setProduct_self _ _ _ _ _
  have hmain : (uploadProducts st uid businessId info (some [p, q]) oc
      now).store.products uid (businessId.getD "") (batchDocId q)
      = some (createProduct (batchItemInput q) now) := by
    rw [hstore, h1]
    simp only [applyBatchItem]
    rw [hget2, setProduct_self]
    exact congrArg some (mergeCreate_some_clean _ _ _ hqe hqf hpe hpf)
  refine ⟨hkp, by simp [batchDocId, hqid, jsOrStr], hmain, ?_, ?_⟩
  · unfold uploadProducts
    rw [if_neg hguard]
    rfl
  · rw [hstore, h1] at hne
    simp only [applyBatchItem] at hne
    by_cases hkey : u = uid ∧ b = businessId.getD "" ∧ p' = batchDocId q
    · exact hkey
    · exfalso
      apply hne
      rw [setProduct_products, if_neg hkey, setProduct_products, if_neg hkey]
      rfl

/-- Second batch item with the same name `Lamp` but a different price. -/
def lampInput99 : ProductInput :=
  { emptyInput with name := some "Lamp", price := some "99" }

/-- Witness for C10: two id-less items both named `Lamp` (prices 20 and 99)
collapse onto one document holding the second item's fields, while the
response reports `savedCount = 2`. -/
theorem batch_duplicate_names_collapse_witness :
    batchDocId lampInput = batchDocId lampInput99 ∧
    batchDocId lampInput99
      = md5hex (jsOrStr lampInput99.name
        (jsOrStr lampInput99.nameUpper "unnamed")) ∧
    (uploadProducts emptyState "alice" (some "b1") emptyBusinessInput
        (some [lampInput, lampInput99]) okOracles 3).store.products "alice"
        ((some "b1" : Option String).getD "") (batchDocId lampInput99)
      = some (createProduct (batchItemInput lampInput99) 3) ∧
    (uploadProducts emptyState "alice" (some "b1") emptyBusinessInput
        (some [lampInput, lampInput99]) okOracles 3).savedCount = some 2 ∧
    ("alice" = "alice" ∧ "b1" = (some "b1" : Option String).getD "" ∧
      md5hex "Lamp" = batchDocId lampInput99) :=
  batch_duplicate_names_collapse emptyState "alice" (some "b1")
    emptyBusinessInput lampInput lampInput99 okOracles 3 "alice" "b1"
    (md5hex "Lamp") (by decide) (by decide) (by decide) (by decide)
    (by decide) (by decide) (by decide) (by decide) (by decide) (by decide)
    (by decide)

end AutoAd
